import Mathlib

/-!
Verification development for the condition-wait and retry-classification
engine of `test/framework/cluster/wait.go` (kubeclipper).

The Go code is shallowly embedded: the domain snapshot types (`Cluster`,
`Backup`) and the API-error vocabulary come from repository packages that are
not part of the analysed sources, so they are modelled from the spec; the wait
functions, the retry classifier, the fetch-error handler and the error
taxonomy are translated from `wait.go` itself.  Go errors are `Option GoError`
(with `none` playing the role of `nil`), and the `wait.PollImmediate`
combinator is modelled as a fuel-indexed loop whose fuel counts the number of
condition invocations allowed before the deadline.
-/

namespace KcWait

/-- Modelled from the spec: health status of a named component condition
(`corev1.ComponentStatus`); the code only compares against
`corev1.ComponentHealthy`, so one constructor stands for the healthy value and
one for every other value. -/
inductive ComponentStatus where
  | healthy
  | unhealthy
deriving DecidableEq, Repr

/-- Modelled from the spec: a named component condition of a cluster snapshot
(`corev1.ComponentConditions` entry). -/
structure ComponentCondition where
  name : String
  status : ComponentStatus
deriving DecidableEq, Repr

/-- Modelled from the spec: the enumerated cluster phase
(`corev1.ClusterPhase`): Pending, Installing, Running, RestoreFailed, plus a
zero/unknown value for the empty phase. -/
inductive ClusterPhase where
  | pending
  | installing
  | running
  | restoreFailed
  | unknown
deriving DecidableEq, Repr

/-- Modelled from the spec: a cluster snapshot (`corev1.Cluster`) with the
attributes the wait engine reads: name, phase, component conditions and the
attached add-ons. -/
structure Cluster where
  name : String
  phase : ClusterPhase
  componentConditions : List ComponentCondition
  addons : List String
deriving DecidableEq, Repr

/-- Modelled from the spec: the enumerated backup status
(`corev1.ClusterBackupStatus`): Pending, Available, Error, plus the Go zero
value (empty string) of a freshly allocated `&corev1.Backup{}`. -/
inductive ClusterBackupStatus where
  | pending
  | available
  | error
  | unknown
deriving DecidableEq, Repr

/-- Modelled from the spec: a backup snapshot (`corev1.Backup`) with the
attributes the wait engine reads. -/
structure Backup where
  name : String
  status : ClusterBackupStatus
deriving DecidableEq, Repr

/-- The Go zero value `corev1.Backup{}` used to initialise `bp` in
`WaitForBackupCondition` and `WaitForBackupNotFound`. -/
def Backup.zero : Backup := { name := "", status := ClusterBackupStatus.unknown }

/-- DeepCopy of a cluster snapshot.  The embedding uses value semantics, so
the defensive copy made by `clu.Items[0].DeepCopy()` is the identity. -/
def Cluster.deepCopy (c : Cluster) : Cluster := c

/-- DeepCopy of a backup snapshot (value semantics, identity). -/
def Backup.deepCopy (b : Backup) : Backup := b

/-- An observed object retained inside a `timeoutError`
(`observedObjects []interface{}`). -/
inductive Observed where
  | cluster (c : Cluster)
  | backup (b : Backup)
deriving DecidableEq, Repr

/-- Modelled from the spec: kinds of API errors distinguishable by the
`pkg/errors` classifiers: "not found", "internal/server error",
"too many requests", and a representative terminal kind ("forbidden"). -/
inductive APIErrorKind where
  | notFound
  | internalError
  | tooManyRequests
  | forbidden
deriving DecidableEq, Repr

/-- A Go error value.  `apiErr` is an error produced by the API client,
`timeoutErr` is the `*timeoutError` of `wait.go`, `errWaitTimeout` is the
`wait.ErrWaitTimeout` sentinel of the k8s wait library, `wrapped` is a
`fmt.Errorf("...: %w", err)` wrapper and `generic` any other error. -/
inductive GoError where
  | apiErr (kind : APIErrorKind) (msg : String)
  | timeoutErr (msg : String) (observedObjects : List Observed)
  | errWaitTimeout
  | wrapped (prefixMsg : String) (cause : GoError)
  | generic (msg : String)
deriving DecidableEq, Repr

/-- The Error() method of a Go error value.  A `timeoutError` returns exactly
its message; the wrapped errors follow `fmt.Errorf` formatting. -/
def GoError.errorMsg : GoError → String
  | GoError.apiErr _ msg => msg
  | GoError.timeoutErr msg _ => msg
  | GoError.errWaitTimeout => "timed out waiting for the condition"
  | GoError.wrapped p cause => p ++ ": " ++ cause.errorMsg
  | GoError.generic msg => msg

/-- Modelled from the spec: `apierror.IsNotFound` — true exactly on a
"not found" API error (false on `nil`). -/
def isNotFound : Option GoError → Bool
  | some (GoError.apiErr APIErrorKind.notFound _) => true
  | _ => false

/-- Modelled from the spec: `apierror.IsInternalError` — true exactly on an
internal/server (HTTP 500 class) API error. -/
def isInternalError : Option GoError → Bool
  | some (GoError.apiErr APIErrorKind.internalError _) => true
  | _ => false

/-- Modelled from the spec: `apierror.IsTooManyRequests` — true exactly on a
too-many-requests (HTTP 429) API error. -/
def isTooManyRequests : Option GoError → Bool
  | some (GoError.apiErr APIErrorKind.tooManyRequests _) => true
  | _ => false

/-- `TimeoutError` of `wait.go`: builds a `*timeoutError` carrying a message
and the observed objects. -/
def TimeoutError (msg : String) (observedObjects : List Observed) : GoError :=
  GoError.timeoutErr msg observedObjects

/-- `IsTimeout` of `wait.go`: true when the error is the `wait.ErrWaitTimeout`
sentinel or a `*timeoutError` (a type check, not message matching). -/
def IsTimeout : Option GoError → Bool
  | some GoError.errWaitTimeout => true
  | some (GoError.timeoutErr _ _) => true
  | _ => false

/-- `shouldRetry` of `wait.go`: an error is retryable exactly when it is an
internal error or a too-many-requests error; the recommended delay is 0. -/
def shouldRetry (err : Option GoError) : Bool × Nat :=
  if isInternalError err || isTooManyRequests err then (true, 0)
  else (false, 0)

/-- `handleWaitingAPIError` of `wait.go` (the task-description arguments only
feed log lines and are omitted): not-found errors are ignored when
`retryNotFound` is set; retryable errors are slept over (delay is always 0)
and ignored; every other error is handed back with `done = false`. -/
def handleWaitingAPIError (err : Option GoError) (retryNotFound : Bool) :
    Bool × Option GoError :=
  if retryNotFound && isNotFound err then (false, none)
  else if (shouldRetry err).1 then (false, none)
  else (false, err)

/-- `maybeTimeoutError` of `wait.go`: a timeout error becomes a fresh
`TimeoutError` (with no observed objects), any other non-nil error is wrapped
with `fmt.Errorf("error while %s: %w", ...)`, and nil stays nil. -/
def maybeTimeoutError (err : Option GoError) (task : String) : Option GoError :=
  if IsTimeout err then some (TimeoutError ("timed out while " ++ task) [])
  else
    match err with
    | some e => some (GoError.wrapped ("error while " ++ task) e)
    | none => none

/-- The result of one fetch of the cluster collaborator
(`c.DescribeCluster`): the error and the item list of the returned object. -/
abbrev ClusterFetchResult := Option GoError × List Cluster

/-- The result of one fetch of the backup collaborator
(`c.ListBackupsWithCluster`). -/
abbrev BackupFetchResult := Option GoError × List Backup

/-- Modelled from the spec: the k8s `wait.PollImmediate` combinator
(immediate-first, fixed-interval polling).  `fuel` is the number of condition
invocations the deadline allows; each tick evaluates the decision `dec i` of
the condition closure and applies its state updates `upd i`.  A non-nil
condition error stops the loop with that error (checked before `done`), a
`done = true` tick stops it successfully, and exhausted fuel yields the
`wait.ErrWaitTimeout` sentinel. -/
def runPoll {σ : Type} (dec : Nat → Bool × Option GoError) (upd : Nat → σ → σ) :
    Nat → Nat → σ → Option GoError × σ
  | _, 0, st => (some GoError.errWaitTimeout, st)
  | i, fuel + 1, st =>
    match dec i with
    | (_, some e) => (some e, upd i st)
    | (true, none) => (none, upd i st)
    | (false, none) => runPoll dec upd (i + 1) fuel (upd i st)

/-- The mutable state of `WaitForClusterCondition`: `lastClusterError` and
`lastCluster`. -/
structure ClusterWaitState where
  lastClusterError : Option GoError
  lastCluster : Option Cluster
deriving DecidableEq, Repr

/-- The decision component of the poll closure of `WaitForClusterCondition`:
on a fetch error or an empty item list, defer to `handleWaitingAPIError` (with
`retryNotFound = true`); otherwise evaluate the condition on the copied first
item, stopping with its error when `done`, and continuing silently (the
condition error is only logged) when not. -/
def clusterCondStep (condition : Cluster → Bool × Option GoError)
    (f : ClusterFetchResult) : Bool × Option GoError :=
  match f with
  | (some e, _) => handleWaitingAPIError (some e) true
  | (none, []) => handleWaitingAPIError none true
  | (none, c :: _) =>
    match condition c.deepCopy with
    | (true, cerr) => (true, cerr)
    | (false, _) => (false, none)

/-- The state updates performed by the poll closure of
`WaitForClusterCondition`: `lastClusterError` records the fetch error of every
tick, and `lastCluster` is overwritten with a deep copy of the first item on
every successful non-empty fetch. -/
def clusterCondUpd (fetch : Nat → ClusterFetchResult) (i : Nat)
    (st : ClusterWaitState) : ClusterWaitState :=
  match fetch i with
  | (some e, _) => { st with lastClusterError := some e }
  | (none, []) => { st with lastClusterError := none }
  | (none, c :: _) =>
    { lastClusterError := none, lastCluster := some c.deepCopy }

/-- The decision function of `WaitForClusterCondition` at tick `i`. -/
def clusterCondDec (fetch : Nat → ClusterFetchResult)
    (condition : Cluster → Bool × Option GoError) (i : Nat) :
    Bool × Option GoError :=
  clusterCondStep condition (fetch i)

/-- The initial state of `WaitForClusterCondition`: no fetch error and no
cluster retained yet (`var lastClusterError error; var lastCluster *Cluster`). -/
def initialClusterWaitState : ClusterWaitState :=
  { lastClusterError := none, lastCluster := none }

/-- `WaitForClusterCondition` of `wait.go`: poll the cluster until the
condition is done.  On a nil loop result return nil; on a timeout with a
retained cluster return a `TimeoutError` carrying it; otherwise substitute the
last fetch error (when non-nil) for the loop error and reconcile through
`maybeTimeoutError`. -/
def WaitForClusterCondition (fetch : Nat → ClusterFetchResult)
    (clusterName conditionDesc : String) (fuel : Nat)
    (condition : Cluster → Bool × Option GoError) : Option GoError :=
  let r := runPoll (clusterCondDec fetch condition) (clusterCondUpd fetch) 0 fuel
    initialClusterWaitState
  match r.1 with
  | none => none
  | some e =>
    match r.2.lastCluster with
    | some c =>
      if IsTimeout (some e) then
        some (TimeoutError ("timed out while waiting for cluster " ++ clusterName
          ++ " to be " ++ conditionDesc) [Observed.cluster c])
      else
        maybeTimeoutError (some (r.2.lastClusterError.getD e))
          ("waiting for cluster " ++ clusterName ++ " to be " ++ conditionDesc)
    | none =>
      maybeTimeoutError (some (r.2.lastClusterError.getD e))
        ("waiting for cluster " ++ clusterName ++ " to be " ++ conditionDesc)

/-- The reconciliation performed by `WaitForClusterCondition` after its poll
loop returns: nil stays nil; a timeout with a retained cluster becomes a
snapshot-carrying `TimeoutError`; otherwise the last fetch error (when
non-nil) replaces the loop error and goes through `maybeTimeoutError`. -/
def finishClusterWait (clusterName conditionDesc : String)
    (oe : Option GoError) (st : ClusterWaitState) : Option GoError :=
  match oe with
  | none => none
  | some e =>
    match st.lastCluster with
    | some c =>
      if IsTimeout (some e) then
        some (TimeoutError ("timed out while waiting for cluster " ++ clusterName
          ++ " to be " ++ conditionDesc) [Observed.cluster c])
      else
        maybeTimeoutError (some (st.lastClusterError.getD e))
          ("waiting for cluster " ++ clusterName ++ " to be " ++ conditionDesc)
    | none =>
      maybeTimeoutError (some (st.lastClusterError.getD e))
        ("waiting for cluster " ++ clusterName ++ " to be " ++ conditionDesc)

/-- The decision component of the poll closure of `WaitForBackupCondition`. -/
def backupCondStep (condition : Backup → Bool × Option GoError)
    (f : BackupFetchResult) : Bool × Option GoError :=
  match f with
  | (some e, _) => handleWaitingAPIError (some e) true
  | (none, []) => handleWaitingAPIError none true
  | (none, b :: _) =>
    match condition b.deepCopy with
    | (true, cerr) => (true, cerr)
    | (false, _) => (false, none)

/-- The state update of the poll closure of `WaitForBackupCondition`: `bp` is
overwritten with a copy of the first item on every successful non-empty
fetch (it starts as the zero-value backup and is never nil). -/
def backupCondUpd (fetch : Nat → BackupFetchResult) (i : Nat) (bp : Backup) :
    Backup :=
  match fetch i with
  | (none, b :: _) => b.deepCopy
  | _ => bp

/-- The decision function of `WaitForBackupCondition` at tick `i`. -/
def backupCondDec (fetch : Nat → BackupFetchResult)
    (condition : Backup → Bool × Option GoError) (i : Nat) :
    Bool × Option GoError :=
  backupCondStep condition (fetch i)

/-- `WaitForBackupCondition` of `wait.go`.  Note that `bp` is initialised to
`&corev1.Backup{}`, so the `bp != nil` guard of the timeout branch is always
true and the `TimeoutError` always carries the retained (possibly zero-value)
backup. -/
def WaitForBackupCondition (fetch : Nat → BackupFetchResult)
    (clusterName backupName conditionDesc : String) (fuel : Nat)
    (condition : Backup → Bool × Option GoError) : Option GoError :=
  let r := runPoll (backupCondDec fetch condition) (backupCondUpd fetch) 0 fuel
    Backup.zero
  match r.1 with
  | none => none
  | some e =>
    if IsTimeout (some e) then
      some (TimeoutError ("timed out while waiting for backup " ++ backupName
        ++ " to be " ++ conditionDesc) [Observed.backup r.2])
    else
      maybeTimeoutError (some e)
        ("waiting for backup " ++ backupName ++ " to be " ++ conditionDesc)

/-- The decision component of the poll closure of `WaitForClusterNotFound`: a
not-found fetch error is success, any other fetch error goes through
`handleWaitingAPIError`, and both the empty and the non-empty item list
continue the loop. -/
def clusterNotFoundStep (f : ClusterFetchResult) : Bool × Option GoError :=
  if isNotFound f.1 then (true, none)
  else
    match f with
    | (some e, _) => handleWaitingAPIError (some e) true
    | (none, _) => (false, none)

/-- The state update of the poll closure of `WaitForClusterNotFound`:
`lastCluster` is set on every successful non-empty fetch. -/
def clusterNotFoundUpd (fetch : Nat → ClusterFetchResult) (i : Nat)
    (st : Option Cluster) : Option Cluster :=
  match fetch i with
  | (none, c :: _) => some c.deepCopy
  | _ => st

/-- The decision function of `WaitForClusterNotFound` at tick `i`. -/
def clusterNotFoundDec (fetch : Nat → ClusterFetchResult) (i : Nat) :
    Bool × Option GoError :=
  clusterNotFoundStep (fetch i)

/-- `WaitForClusterNotFound` of `wait.go`: wait until the cluster fetch
reports "not found". -/
def WaitForClusterNotFound (fetch : Nat → ClusterFetchResult)
    (clusterName : String) (fuel : Nat) : Option GoError :=
  let r := runPoll (clusterNotFoundDec fetch) (clusterNotFoundUpd fetch) 0 fuel
    (none : Option Cluster)
  match r.1 with
  | none => none
  | some e =>
    match r.2 with
    | some c =>
      if IsTimeout (some e) then
        some (TimeoutError ("timeout while waiting for cluster " ++ clusterName
          ++ " to be Not Found") [Observed.cluster c])
      else
        maybeTimeoutError (some e)
          ("waiting for cluster " ++ clusterName ++ " not found")
    | none =>
      maybeTimeoutError (some e)
        ("waiting for cluster " ++ clusterName ++ " not found")

/-- The decision component of the poll closure of `WaitForComponentNotFound`:
fetch errors go through `handleWaitingAPIError`, an empty item list continues,
and a fetched cluster stops successfully exactly when its add-on list is
empty. -/
def componentNotFoundStep (f : ClusterFetchResult) : Bool × Option GoError :=
  match f with
  | (some e, _) => handleWaitingAPIError (some e) true
  | (none, []) => (false, none)
  | (none, c :: _) => if c.deepCopy.addons = [] then (true, none) else (false, none)

/-- The state update of the poll closure of `WaitForComponentNotFound`. -/
def componentNotFoundUpd (fetch : Nat → ClusterFetchResult) (i : Nat)
    (st : Option Cluster) : Option Cluster :=
  match fetch i with
  | (none, c :: _) => some c.deepCopy
  | _ => st

/-- The decision function of `WaitForComponentNotFound` at tick `i`. -/
def componentNotFoundDec (fetch : Nat → ClusterFetchResult) (i : Nat) :
    Bool × Option GoError :=
  componentNotFoundStep (fetch i)

/-- `WaitForComponentNotFound` of `wait.go`: wait until the fetched cluster
has no add-ons. -/
def WaitForComponentNotFound (fetch : Nat → ClusterFetchResult)
    (clusterName : String) (fuel : Nat) : Option GoError :=
  let r := runPoll (componentNotFoundDec fetch) (componentNotFoundUpd fetch) 0
    fuel (none : Option Cluster)
  match r.1 with
  | none => none
  | some e =>
    match r.2 with
    | some c =>
      if IsTimeout (some e) then
        some (TimeoutError ("timeout while waiting for cluster " ++ clusterName
          ++ " component to be Not Found") [Observed.cluster c])
      else
        maybeTimeoutError (some e)
          ("waiting for cluster " ++ clusterName ++ " uninstall component not found")
    | none =>
      maybeTimeoutError (some e)
        ("waiting for cluster " ++ clusterName ++ " uninstall component not found")

/-- The condition closure of `WaitForClusterRunning`. -/
def clusterRunningCondition (clu : Cluster) : Bool × Option GoError :=
  (clu.phase == ClusterPhase.running, none)

/-- `WaitForClusterRunning` of `wait.go`. -/
def WaitForClusterRunning (fetch : Nat → ClusterFetchResult)
    (clusterName : String) (fuel : Nat) : Option GoError :=
  WaitForClusterCondition fetch clusterName
    ("cluster " ++ clusterName ++ " running") fuel clusterRunningCondition

/-- The scan of the component conditions performed by the closure of
`WaitForClusterHealthy`: the first entry named "kubernetes" decides, its
status compared with healthy; no entry yields `(false, nil)`. -/
def scanKubernetesHealthy : List ComponentCondition → Bool × Option GoError
  | [] => (false, none)
  | item :: rest =>
    if item.name == "kubernetes" then (item.status == ComponentStatus.healthy, none)
    else scanKubernetesHealthy rest

/-- The condition closure of `WaitForClusterHealthy`. -/
def clusterHealthyCondition (clu : Cluster) : Bool × Option GoError :=
  scanKubernetesHealthy clu.componentConditions

/-- `WaitForClusterHealthy` of `wait.go`. -/
def WaitForClusterHealthy (fetch : Nat → ClusterFetchResult)
    (clusterName : String) (fuel : Nat) : Option GoError :=
  WaitForClusterCondition fetch clusterName
    ("cluster " ++ clusterName ++ " healthy") fuel clusterHealthyCondition

/-- The condition closure of `WaitForBackupAvailable`: done when the status is
Available, a domain error (without done) when it is Error, silent continuation
otherwise. -/
def backupAvailableCondition (backup : Backup) : Bool × Option GoError :=
  if backup.status == ClusterBackupStatus.available then (true, none)
  else if backup.status == ClusterBackupStatus.error then
    (false, some (GoError.generic ("backup " ++ backup.name ++ " create failed")))
  else (false, none)

/-- `WaitForBackupAvailable` of `wait.go`. -/
def WaitForBackupAvailable (fetch : Nat → BackupFetchResult)
    (clusterName backupName : String) (fuel : Nat) : Option GoError :=
  WaitForBackupCondition fetch clusterName backupName
    ("backup " ++ backupName ++ " available") fuel backupAvailableCondition

/-- The condition closure of `WaitForRecovery`. -/
def recoveryCondition (clusterName : String) (clu : Cluster) :
    Bool × Option GoError :=
  if clu.phase == ClusterPhase.running then (true, none)
  else if clu.phase == ClusterPhase.restoreFailed then
    (false, some (GoError.generic ("recovery cluster " ++ clusterName ++ " failed")))
  else (false, none)

/-- `WaitForRecovery` of `wait.go`. -/
def WaitForRecovery (fetch : Nat → ClusterFetchResult) (clusterName : String)
    (fuel : Nat) : Option GoError :=
  WaitForClusterCondition fetch clusterName "recovery successful" fuel
    (recoveryCondition clusterName)

/-- Whether a fetched item list is non-empty and its first cluster has an
empty add-on list (the success test of `WaitForComponentNotFound`). -/
def firstClusterAddonsEmpty : List Cluster → Bool
  | [] => false
  | c :: _ => c.addons.isEmpty

/-- Test vector: a cluster still installing, no add-ons. -/
def cInstalling : Cluster :=
  { name := "c", phase := ClusterPhase.installing, componentConditions := []
    addons := [] }

/-- Test vector: a cluster whose restore failed. -/
def cRestoreFailed : Cluster :=
  { name := "c", phase := ClusterPhase.restoreFailed, componentConditions := []
    addons := [] }

/-- Test vector: a cluster that still carries one add-on. -/
def clusterWithAddon : Cluster :=
  { name := "c", phase := ClusterPhase.installing, componentConditions := []
    addons := ["nfs-provisioner"] }

/-- Test vector: a backup in the Error status. -/
def bError : Backup := { name := "b", status := ClusterBackupStatus.error }

/-- Test vector: a fetch that always succeeds with the installing cluster. -/
def fetchOneInstalling : Nat → ClusterFetchResult := fun _ => (none, [cInstalling])

/-- Test vector: a fetch that always succeeds with the restore-failed
cluster. -/
def fetchRestoreFailed : Nat → ClusterFetchResult := fun _ => (none, [cRestoreFailed])

/-- Test vector: a fetch that always succeeds with an empty item list. -/
def fetchAlwaysEmpty : Nat → ClusterFetchResult := fun _ => (none, [])

/-- Test vector: a fetch that fails with an internal error on the first call
and reports not-found afterwards. -/
def fetchInternalThenNotFound : Nat → ClusterFetchResult := fun i =>
  if i = 0 then (some (GoError.apiErr APIErrorKind.internalError "ise"), [])
  else (some (GoError.apiErr APIErrorKind.notFound "nf"), [])

/-- Test vector: a cluster fetch that always fails with an internal error. -/
def fetchClusterInternal : Nat → ClusterFetchResult := fun _ =>
  (some (GoError.apiErr APIErrorKind.internalError "ise"), [])

/-- Test vector: a backup fetch that always fails with an internal error. -/
def fetchBackupInternal : Nat → BackupFetchResult := fun _ =>
  (some (GoError.apiErr APIErrorKind.internalError "ise"), [])

/-- Test vector: a backup fetch that always returns the Error-status backup. -/
def fetchBackupError : Nat → BackupFetchResult := fun _ => (none, [bError])

/-- Test vector: a fetch that always returns the cluster with one add-on. -/
def fetchClusterWithAddon : Nat → ClusterFetchResult := fun _ =>
  (none, [clusterWithAddon])

/-- Test vector: a condition that reports done together with a non-nil
error. -/
def doneWithErrCondition : Cluster → Bool × Option GoError := fun _ =>
  (true, some (GoError.generic "boom"))

/-- A tick whose decision carries a non-nil error stops the poll loop at that
tick with that error (the error is checked before `done`). -/
theorem runPoll_stop_err {σ : Type} (dec : Nat → Bool × Option GoError)
    (upd : Nat → σ → σ) (i fuel : Nat) (st : σ) (b : Bool) (e : GoError)
    (h : dec i = (b, some e)) :
    runPoll dec upd i (fuel + 1) st = (some e, upd i st) := by
  simp [runPoll, h]

/-- A tick whose decision is `(true, nil)` stops the poll loop successfully. -/
theorem runPoll_stop_done {σ : Type} (dec : Nat → Bool × Option GoError)
    (upd : Nat → σ → σ) (i fuel : Nat) (st : σ)
    (h : dec i = (true, none)) :
    runPoll dec upd i (fuel + 1) st = (none, upd i st) := by
  simp [runPoll, h]

/-- A tick whose decision is `(false, nil)` lets the poll loop continue to the
next tick with the updated state. -/
theorem runPoll_cont {σ : Type} (dec : Nat → Bool × Option GoError)
    (upd : Nat → σ → σ) (i fuel : Nat) (st : σ)
    (h : dec i = (false, none)) :
    runPoll dec upd i (fuel + 1) st = runPoll dec upd (i + 1) fuel (upd i st) := by
  simp [runPoll, h]

/-- A tick whose decision is `(true, e)` stops the poll loop at that tick with
the decision's error component as the loop result, whatever that error is. -/
theorem runPoll_stop_done_any {σ : Type} (dec : Nat → Bool × Option GoError)
    (upd : Nat → σ → σ) (i fuel : Nat) (st : σ) (e : Option GoError)
    (h : dec i = (true, e)) :
    runPoll dec upd i (fuel + 1) st = (e, upd i st) := by
  cases e with
  | none => simpa using runPoll_stop_done dec upd i fuel st h
  | some x => simpa using runPoll_stop_err dec upd i fuel st true x h

/-- The poll loop returns a nil error exactly when some tick within the fuel
decides `(true, nil)` while every earlier tick decides `(false, nil)`. -/
theorem runPoll_none_iff {σ : Type} (dec : Nat → Bool × Option GoError)
    (upd : Nat → σ → σ) :
    ∀ (fuel i : Nat) (st : σ),
      (runPoll dec upd i fuel st).1 = none ↔
        ∃ k, k < fuel ∧ dec (i + k) = (true, none) ∧
          ∀ j, j < k → dec (i + j) = (false, none) := by
  intro fuel
  induction fuel with
  | zero =>
    intro i st
    simp [runPoll]
  | succ n ih =>
    intro i st
    rcases hd : dec i with ⟨b, oe⟩
    cases oe with
    | some e =>
      rw [runPoll_stop_err dec upd i n st b e hd]
      simp only [Option.some_ne_none, false_iff]
      rintro ⟨k, _, hdk, hall⟩
      cases k with
      | zero =>
        rw [Nat.add_zero, hd] at hdk
        exact Option.some_ne_none e (congrArg Prod.snd hdk)
      | succ k' =>
        have h0 := hall 0 (Nat.succ_pos k')
        rw [Nat.add_zero, hd] at h0
        exact Option.noConfusion (congrArg Prod.snd h0)
    | none =>
      cases b with
      | true =>
        rw [runPoll_stop_done dec upd i n st hd]
        constructor
        · intro _
          exact ⟨0, Nat.succ_pos n, by simpa using hd,
            fun j hj => absurd hj (Nat.not_lt_zero j)⟩
        · intro _; rfl
      | false =>
        rw [runPoll_cont dec upd i n st hd, ih (i + 1) (upd i st)]
        constructor
        · rintro ⟨k, hk, hdk, hall⟩
          refine ⟨k + 1, Nat.succ_lt_succ hk, ?_, ?_⟩
          · have : i + (k + 1) = i + 1 + k := by omega
            rw [this]; exact hdk
          · intro j hj
            cases j with
            | zero => simpa using hd
            | succ j' =>
              have hj' : j' < k := Nat.lt_of_succ_lt_succ hj
              have : i + (j' + 1) = i + 1 + j' := by omega
              rw [this]; exact hall j' hj'
        · rintro ⟨k, hk, hdk, hall⟩
          cases k with
          | zero =>
            rw [Nat.add_zero, hd] at hdk
            exact absurd (congrArg Prod.fst hdk) (by simp)
          | succ k' =>
            refine ⟨k', Nat.lt_of_succ_lt_succ hk, ?_, ?_⟩
            · have : i + 1 + k' = i + (k' + 1) := by omega
              rw [this]; exact hdk
            · intro j hj
              have : i + 1 + j = i + (j + 1) := by omega
              rw [this]; exact hall (j + 1) (Nat.succ_lt_succ hj)

/-- A property preserved by the state updates of the ticks the fuel window
can reach holds for the final state of the poll loop. -/
theorem runPoll_inv {σ : Type} (dec : Nat → Bool × Option GoError)
    (upd : Nat → σ → σ) (P : σ → Prop) :
    ∀ (fuel i : Nat) (st : σ),
      (∀ j s, i ≤ j → j < i + fuel → P s → P (upd j s)) →
      P st → P (runPoll dec upd i fuel st).2 := by
  intro fuel
  induction fuel with
  | zero => intro i st _ h; simpa [runPoll] using h
  | succ n ih =>
    intro i st hupd h
    have hi : i ≤ i := Nat.le_refl i
    have hi' : i < i + (n + 1) := by omega
    rcases hd : dec i with ⟨b, oe⟩
    cases oe with
    | some e =>
      rw [runPoll_stop_err dec upd i n st b e hd]
      exact hupd i st hi hi' h
    | none =>
      cases b with
      | true =>
        rw [runPoll_stop_done dec upd i n st hd]
        exact hupd i st hi hi' h
      | false =>
        rw [runPoll_cont dec upd i n st hd]
        exact ih (i + 1) (upd i st)
          (fun j s hj hj' hs => hupd j s (by omega) (by omega) hs)
          (hupd i st hi hi' h)

/-- `maybeTimeoutError` of a non-nil error never returns nil. -/
theorem maybeTimeoutError_some_ne_none (e : GoError) (task : String) :
    maybeTimeoutError (some e) task ≠ none := by
  unfold maybeTimeoutError
  by_cases h : IsTimeout (some e) = true
  · simp [h]
  · simp [h]

/-- The first component of `handleWaitingAPIError` is false on every branch:
the handler itself never reports done. -/
theorem handleWaitingAPIError_fst (err : Option GoError) (rnf : Bool) :
    (handleWaitingAPIError err rnf).1 = false := by
  unfold handleWaitingAPIError
  by_cases h1 : (rnf && isNotFound err) = true
  · simp [h1]
  · by_cases h2 : (shouldRetry err).1 = true
    · simp [h1, h2]
    · simp [h1, h2]

/-- The scan of `WaitForClusterHealthy` never reports an error. -/
theorem scanKubernetesHealthy_snd :
    ∀ l : List ComponentCondition, (scanKubernetesHealthy l).2 = none := by
  intro l
  induction l with
  | nil => rfl
  | cons item rest ih =>
    unfold scanKubernetesHealthy
    by_cases h : (item.name == "kubernetes") = true
    · simp [h]
    · simpa [h] using ih

/-- The scan of `WaitForClusterHealthy` reports done exactly when the first
entry named "kubernetes" exists and is healthy. -/
theorem scanKubernetesHealthy_fst_iff :
    ∀ l : List ComponentCondition,
      (scanKubernetesHealthy l).1 = true ↔
        ∃ item, l.find? (fun it => it.name == "kubernetes") = some item ∧
          item.status = ComponentStatus.healthy := by
  intro l
  induction l with
  | nil => simp [scanKubernetesHealthy]
  | cons item rest ih =>
    unfold scanKubernetesHealthy
    by_cases h : (item.name == "kubernetes") = true
    · simp [List.find?, h]
    · simpa [List.find?, h] using ih

/-- The decision of a `WaitForComponentNotFound` tick is `(true, nil)` exactly
when the fetch succeeded with a non-empty list whose first cluster has no
add-ons. -/
theorem componentNotFoundStep_done_iff (f : ClusterFetchResult) :
    componentNotFoundStep f = (true, none) ↔
      f.1 = none ∧ firstClusterAddonsEmpty f.2 = true := by
  rcases f with ⟨ferr, items⟩
  cases ferr with
  | some e =>
    unfold componentNotFoundStep
    constructor
    · intro h
      have := handleWaitingAPIError_fst (some e) true
      rw [congrArg Prod.fst h] at this
      cases this
    · rintro ⟨h, _⟩
      cases h
  | none =>
    cases items with
    | nil => simp [componentNotFoundStep, firstClusterAddonsEmpty]
    | cons c cs =>
      unfold componentNotFoundStep firstClusterAddonsEmpty
      by_cases h : c.deepCopy.addons = []
      · simp [Cluster.deepCopy] at h
        simp [Cluster.deepCopy, h, List.isEmpty_iff]
      · simp [Cluster.deepCopy] at h
        simp [Cluster.deepCopy, h, List.isEmpty_iff]

/-- The `timeoutError` produced by `maybeTimeoutError` carries no observed
objects. -/
theorem maybeTimeoutError_no_observed (err : Option GoError) (task : String)
    (m : String) (obs : List Observed)
    (h : maybeTimeoutError err task = some (GoError.timeoutErr m obs)) :
    obs = [] := by
  unfold maybeTimeoutError at h
  by_cases ht : IsTimeout err = true
  · rw [if_pos ht] at h
    unfold TimeoutError at h
    cases h
    rfl
  · rw [if_neg ht] at h
    cases err with
    | none => cases h
    | some e => cases h

/-- `WaitForClusterCondition` returns nil exactly when its poll loop result is
nil: every non-nil loop result is reconciled into a non-nil error. -/
theorem WaitForClusterCondition_none_iff (fetch : Nat → ClusterFetchResult)
    (clusterName conditionDesc : String) (fuel : Nat)
    (condition : Cluster → Bool × Option GoError) :
    WaitForClusterCondition fetch clusterName conditionDesc fuel condition = none
      ↔ (runPoll (clusterCondDec fetch condition) (clusterCondUpd fetch) 0 fuel
          initialClusterWaitState).1 = none := by
  rcases hr : runPoll (clusterCondDec fetch condition) (clusterCondUpd fetch)
    0 fuel initialClusterWaitState with ⟨oe, st⟩
  cases oe with
  | none => simp [WaitForClusterCondition, hr]
  | some e =>
    simp only [WaitForClusterCondition, hr, Option.some_ne_none, iff_false]
    cases hlc : st.lastCluster with
    | some c =>
      simp only [hlc]
      by_cases ht : IsTimeout (some e) = true
      · simp [ht]
      · simp only [ht, if_false, Bool.false_eq_true]
        exact maybeTimeoutError_some_ne_none _ _
    | none =>
      simp only [hlc]
      exact maybeTimeoutError_some_ne_none _ _

/-- Unfolding of `WaitForClusterCondition` once the poll loop's result is
known: the reconciliation of the loop error with the retained state. -/
theorem WaitForClusterCondition_eq_finish (fetch : Nat → ClusterFetchResult)
    (clusterName conditionDesc : String) (fuel : Nat)
    (condition : Cluster → Bool × Option GoError)
    (oe : Option GoError) (st : ClusterWaitState)
    (hr : runPoll (clusterCondDec fetch condition) (clusterCondUpd fetch) 0 fuel
        initialClusterWaitState = (oe, st)) :
    WaitForClusterCondition fetch clusterName conditionDesc fuel condition
      = finishClusterWait clusterName conditionDesc oe st := by
  unfold WaitForClusterCondition finishClusterWait
  rw [hr]

/-- `WaitForComponentNotFound` returns nil exactly when its poll loop result
is nil. -/
theorem WaitForComponentNotFound_none_iff (fetch : Nat → ClusterFetchResult)
    (clusterName : String) (fuel : Nat) :
    WaitForComponentNotFound fetch clusterName fuel = none
      ↔ (runPoll (componentNotFoundDec fetch) (componentNotFoundUpd fetch) 0 fuel
          (none : Option Cluster)).1 = none := by
  rcases hr : runPoll (componentNotFoundDec fetch) (componentNotFoundUpd fetch)
    0 fuel (none : Option Cluster) with ⟨oe, st⟩
  cases oe with
  | none => simp [WaitForComponentNotFound, hr]
  | some e =>
    simp only [WaitForComponentNotFound, hr, Option.some_ne_none, iff_false]
    cases hlc : st with
    | some c =>
      simp only [hlc]
      by_cases ht : IsTimeout (some e) = true
      · simp [ht]
      · simp only [ht, if_false, Bool.false_eq_true]
        exact maybeTimeoutError_some_ne_none _ _
    | none =>
      simp only [hlc]
      exact maybeTimeoutError_some_ne_none _ _

/-- C5: for every error value err, the retry classifier `shouldRetry err`
returns `(retry = true, delay = 0)` exactly when err denotes an
internal/server error or a too-many-requests error, and returns
`retry = false` (with delay 0) for every other error, including not-found
errors; it is a pure function of the error, with no side effects. -/
theorem shouldRetry_spec (err : Option GoError) :
    (shouldRetry err = (true, 0) ↔
      (isInternalError err = true ∨ isTooManyRequests err = true))
    ∧ (isInternalError err = false → isTooManyRequests err = false →
        shouldRetry err = (false, 0))
    ∧ (isNotFound err = true → shouldRetry err = (false, 0)) := by
  refine ⟨?_, ?_, ?_⟩
  · constructor
    · intro h
      cases hie : isInternalError err with
      | true => exact Or.inl rfl
      | false =>
        cases htm : isTooManyRequests err with
        | true => exact Or.inr rfl
        | false =>
          rw [shouldRetry, hie, htm] at h
          simp at h
    · intro h
      rcases h with h | h <;> simp [shouldRetry, h]
  · intro h1 h2
    simp [shouldRetry, h1, h2]
  · intro h
    cases err with
    | none => simp [isNotFound] at h
    | some e =>
      cases e with
      | apiErr kind msg =>
        cases kind with
        | notFound => simp [shouldRetry, isInternalError, isTooManyRequests]
        | internalError => simp [isNotFound] at h
        | tooManyRequests => simp [isNotFound] at h
        | forbidden => simp [isNotFound] at h
      | timeoutErr msg obs => simp [isNotFound] at h
      | errWaitTimeout => simp [isNotFound] at h
      | wrapped p c => simp [isNotFound] at h
      | generic m => simp [isNotFound] at h

/-- Witness for C5 at concrete errors: an internal error is retryable with
zero delay, and a not-found error as well as a generic error are not. -/
theorem shouldRetry_spec_witness :
    shouldRetry (some (GoError.apiErr APIErrorKind.internalError "ise")) = (true, 0)
    ∧ shouldRetry (some (GoError.apiErr APIErrorKind.notFound "nf")) = (false, 0)
    ∧ shouldRetry (some (GoError.generic "g")) = (false, 0) :=
  ⟨(shouldRetry_spec (some (GoError.apiErr APIErrorKind.internalError "ise"))).1.2
      (Or.inl (by decide)),
   (shouldRetry_spec (some (GoError.apiErr APIErrorKind.notFound "nf"))).2.2
      (by decide),
   (shouldRetry_spec (some (GoError.generic "g"))).2.1 (by decide) (by decide)⟩

/-- C7: for every cluster snapshot, the cluster-healthy predicate reports
done exactly when the scan of the component conditions finds an entry named
"kubernetes" (the first such entry) whose status is Healthy, and its error
component is nil on every snapshot — it never returns a non-nil error, so
only the timeout bounds the wait. -/
theorem clusterHealthyCondition_spec (clu : Cluster) :
    (clusterHealthyCondition clu).2 = none
    ∧ ((clusterHealthyCondition clu).1 = true ↔
        ∃ item,
          clu.componentConditions.find? (fun it => it.name == "kubernetes")
            = some item
          ∧ item.status = ComponentStatus.healthy) :=
  ⟨scanKubernetesHealthy_snd clu.componentConditions,
   scanKubernetesHealthy_fst_iff clu.componentConditions⟩

/-- C8: for every backup snapshot, the backup-available predicate returns
`(true, nil)` when the status is Available, `(false, e)` for a non-nil domain
error e when the status is Error, and `(false, nil)` for every other
status. -/
theorem backupAvailableCondition_spec (b : Backup) :
    (b.status = ClusterBackupStatus.available →
      backupAvailableCondition b = (true, none))
    ∧ (b.status = ClusterBackupStatus.error →
        ∃ e, backupAvailableCondition b = (false, some e))
    ∧ (b.status ≠ ClusterBackupStatus.available →
        b.status ≠ ClusterBackupStatus.error →
        backupAvailableCondition b = (false, none)) := by
  refine ⟨?_, ?_, ?_⟩
  · intro h
    simp [backupAvailableCondition, h]
  · intro h
    exact ⟨GoError.generic ("backup " ++ b.name ++ " create failed"),
      by simp [backupAvailableCondition, h]⟩
  · intro h1 h2
    simp [backupAvailableCondition, h1, h2]

/-- Witness for C8 at concrete backups: Available yields done, Error yields a
domain error without done, Pending continues silently. -/
theorem backupAvailableCondition_spec_witness :
    backupAvailableCondition { name := "b", status := ClusterBackupStatus.available }
      = (true, none)
    ∧ (∃ e, backupAvailableCondition bError = (false, some e))
    ∧ backupAvailableCondition { name := "b", status := ClusterBackupStatus.pending }
      = (false, none) :=
  ⟨(backupAvailableCondition_spec
      { name := "b", status := ClusterBackupStatus.available }).1 rfl,
   (backupAvailableCondition_spec bError).2.1 rfl,
   (backupAvailableCondition_spec
      { name := "b", status := ClusterBackupStatus.pending }).2.2
      (by decide) (by decide)⟩

/-- C9: for every message and list of observed objects, the error built by
`TimeoutError` is recognised by `IsTimeout` (a type check independent of the
message text), its Error() message is exactly the given message, and
`IsTimeout` also holds for the `wait.ErrWaitTimeout` sentinel. -/
theorem timeoutError_spec (msg : String) (obs : List Observed) :
    IsTimeout (some (TimeoutError msg obs)) = true
    ∧ (TimeoutError msg obs).errorMsg = msg
    ∧ IsTimeout (some GoError.errWaitTimeout) = true :=
  ⟨rfl, rfl, rfl⟩

/-- C1: for every fetch function and predicate, a poll tick in which the
predicate returns `(false, someError)` never terminates the wait loop: the
tick's decision is `(false, nil)` for both the cluster and the backup wait,
and the loop simply continues to the next tick with the updated state, so
only `done = true`, a terminal fetch error, or deadline (fuel) expiry can end
the wait. -/
theorem soft_predicate_error_never_terminates
    (fetchC : Nat → ClusterFetchResult) (fetchB : Nat → BackupFetchResult)
    (ccond : Cluster → Bool × Option GoError)
    (bcond : Backup → Bool × Option GoError)
    (i fuel : Nat) (st : ClusterWaitState) (bp : Backup)
    (c : Cluster) (cs : List Cluster) (b : Backup) (bs : List Backup)
    (e e' : GoError)
    (hfc : fetchC i = (none, c :: cs))
    (hcc : ccond c.deepCopy = (false, some e))
    (hfb : fetchB i = (none, b :: bs))
    (hbc : bcond b.deepCopy = (false, some e')) :
    clusterCondStep ccond (none, c :: cs) = (false, none)
    ∧ backupCondStep bcond (none, b :: bs) = (false, none)
    ∧ runPoll (clusterCondDec fetchC ccond) (clusterCondUpd fetchC) i (fuel + 1) st
        = runPoll (clusterCondDec fetchC ccond) (clusterCondUpd fetchC) (i + 1)
            fuel (clusterCondUpd fetchC i st)
    ∧ runPoll (backupCondDec fetchB bcond) (backupCondUpd fetchB) i (fuel + 1) bp
        = runPoll (backupCondDec fetchB bcond) (backupCondUpd fetchB) (i + 1)
            fuel (backupCondUpd fetchB i bp) := by
  have hcs : clusterCondStep ccond (none, c :: cs) = (false, none) := by
    simp [clusterCondStep, hcc]
  have hbs : backupCondStep bcond (none, b :: bs) = (false, none) := by
    simp [backupCondStep, hbc]
  refine ⟨hcs, hbs, ?_, ?_⟩
  · exact runPoll_cont _ _ i fuel st (by rw [clusterCondDec, hfc]; exact hcs)
  · exact runPoll_cont _ _ i fuel bp (by rw [backupCondDec, hfb]; exact hbs)

/-- Witness for C1: the recovery predicate on a restore-failed cluster and the
backup-available predicate on an Error-status backup both report
`(false, someError)`, and the respective poll loops continue past that tick. -/
theorem soft_predicate_error_never_terminates_witness :
    clusterCondStep (recoveryCondition "c") (none, [cRestoreFailed]) = (false, none)
    ∧ backupCondStep backupAvailableCondition (none, [bError]) = (false, none)
    ∧ runPoll (clusterCondDec fetchRestoreFailed (recoveryCondition "c"))
        (clusterCondUpd fetchRestoreFailed) 0 1 initialClusterWaitState
        = runPoll (clusterCondDec fetchRestoreFailed (recoveryCondition "c"))
            (clusterCondUpd fetchRestoreFailed) 1 0
            (clusterCondUpd fetchRestoreFailed 0 initialClusterWaitState)
    ∧ runPoll (backupCondDec fetchBackupError backupAvailableCondition)
        (backupCondUpd fetchBackupError) 0 1 Backup.zero
        = runPoll (backupCondDec fetchBackupError backupAvailableCondition)
            (backupCondUpd fetchBackupError) 1 0
            (backupCondUpd fetchBackupError 0 Backup.zero) :=
  soft_predicate_error_never_terminates fetchRestoreFailed fetchBackupError
    (recoveryCondition "c") backupAvailableCondition 0 0
    initialClusterWaitState Backup.zero
    cRestoreFailed [] bError []
    (GoError.generic "recovery cluster c failed")
    (GoError.generic "backup b create failed")
    (by decide) (by decide) (by decide) (by decide)

/-- C2 counterexample: a predicate that returns `(done = true, someError)` at
the very first tick does terminate the loop there, but the wait call returns a
non-nil wrapped error rather than Success, contradicting the claim that a
loop exit caused by `done = true` yields a nil result. -/
theorem done_true_with_error_returns_nonnil :
    clusterCondDec fetchOneInstalling doneWithErrCondition 0
      = (true, some (GoError.generic "boom"))
    ∧ runPoll (clusterCondDec fetchOneInstalling doneWithErrCondition)
        (clusterCondUpd fetchOneInstalling) 0 3 initialClusterWaitState
        = (some (GoError.generic "boom"),
           { lastClusterError := none, lastCluster := some cInstalling })
    ∧ WaitForClusterCondition fetchOneInstalling "c" "d" 3 doneWithErrCondition
        = some (GoError.wrapped "error while waiting for cluster c to be d"
            (GoError.generic "boom")) := by
  refine ⟨by decide, by decide, by decide⟩

/-- C2 as amended: once the predicate returns `done = true` at a tick, the
polling loop terminates at that tick regardless of the predicate's error —
the loop result is exactly that error — and the wait call returns Success
(nil) if and only if the predicate's error at the terminating tick is nil;
a non-nil predicate error at the done tick is surfaced as a non-nil return
value, not as Success. -/
theorem done_true_terminates_and_success_iff_nil_error
    (fetch : Nat → ClusterFetchResult) (clusterName conditionDesc : String)
    (fuel : Nat) (condition : Cluster → Bool × Option GoError)
    (e : Option GoError)
    (hfuel : 0 < fuel)
    (hdone : clusterCondStep condition (fetch 0) = (true, e)) :
    (∀ (i fuel' : Nat) (st : ClusterWaitState) (e' : Option GoError),
      clusterCondDec fetch condition i = (true, e') →
      runPoll (clusterCondDec fetch condition) (clusterCondUpd fetch) i
          (fuel' + 1) st
        = (e', clusterCondUpd fetch i st))
    ∧ (WaitForClusterCondition fetch clusterName conditionDesc fuel condition
        = none ↔ e = none) := by
  constructor
  · intro i fuel' st e' h
    exact runPoll_stop_done_any _ _ i fuel' st e' h
  · obtain ⟨n, rfl⟩ : ∃ n, fuel = n + 1 := ⟨fuel - 1, by omega⟩
    have hloop : runPoll (clusterCondDec fetch condition) (clusterCondUpd fetch)
        0 (n + 1) initialClusterWaitState
        = (e, clusterCondUpd fetch 0 initialClusterWaitState) :=
      runPoll_stop_done_any _ _ 0 n initialClusterWaitState e
        (by rw [clusterCondDec]; exact hdone)
    rw [WaitForClusterCondition_none_iff, hloop]

/-- Witness for C2 as amended: at the first tick the done-with-error predicate
ends the loop with its error, and the wait call is not Success; the same
wait with the running-phase predicate on a running cluster is Success. -/
theorem done_true_terminates_and_success_iff_nil_error_witness :
    runPoll (clusterCondDec fetchOneInstalling doneWithErrCondition)
        (clusterCondUpd fetchOneInstalling) 0 (2 + 1) initialClusterWaitState
      = (some (GoError.generic "boom"),
         clusterCondUpd fetchOneInstalling 0 initialClusterWaitState)
    ∧ (WaitForClusterCondition fetchOneInstalling "c" "d" 3 doneWithErrCondition
        = none ↔ (some (GoError.generic "boom") : Option GoError) = none) :=
  ⟨(done_true_terminates_and_success_iff_nil_error fetchOneInstalling "c" "d" 3
      doneWithErrCondition (some (GoError.generic "boom")) (by decide)
      (by decide)).1 0 2 initialClusterWaitState (some (GoError.generic "boom"))
      (by decide),
   (done_true_terminates_and_success_iff_nil_error fetchOneInstalling "c" "d" 3
      doneWithErrCondition (some (GoError.generic "boom")) (by decide)
      (by decide)).2⟩

/-- C4 counterexample: for a terminal (neither not-found nor retryable) fetch
error, `handleWaitingAPIError` returns `(false, err)`, not `(true, err)` as
the claim states — its first component is false on every branch. -/
theorem terminal_fetch_error_first_component_false :
    handleWaitingAPIError (some (GoError.apiErr APIErrorKind.forbidden "forbidden"))
        true
      = (false, some (GoError.apiErr APIErrorKind.forbidden "forbidden"))
    ∧ handleWaitingAPIError (some (GoError.apiErr APIErrorKind.forbidden "forbidden"))
        true
      ≠ (true, some (GoError.apiErr APIErrorKind.forbidden "forbidden")) := by
  refine ⟨by decide, by decide⟩

/-- C4 as amended: if `retryNotFound` is set and the error denotes not-found,
`handleWaitingAPIError` returns `(false, nil)` to keep polling; if the error
is classified retryable it returns `(false, nil)` (after sleeping the
indicated delay, which is always 0); for every other error it returns
`(false, err)` — done stays false, but the enclosing wait still stops
immediately with that terminal error, because the poll loop terminates at any
tick whose decision carries a non-nil error. -/
theorem handleWaitingAPIError_spec (err : Option GoError) (rnf : Bool) :
    (rnf = true → isNotFound err = true →
      handleWaitingAPIError err rnf = (false, none))
    ∧ ((shouldRetry err).1 = true → handleWaitingAPIError err rnf = (false, none))
    ∧ ((rnf && isNotFound err) = false → (shouldRetry err).1 = false →
        handleWaitingAPIError err rnf = (false, err))
    ∧ (∀ {σ : Type} (dec : Nat → Bool × Option GoError) (upd : Nat → σ → σ)
        (i fuel : Nat) (st : σ) (b : Bool) (e : GoError),
        dec i = (b, some e) →
        runPoll dec upd i (fuel + 1) st = (some e, upd i st)) := by
  refine ⟨?_, ?_, ?_, ?_⟩
  · intro h1 h2
    simp [handleWaitingAPIError, h1, h2]
  · intro h
    unfold handleWaitingAPIError
    by_cases hn : (rnf && isNotFound err) = true
    · simp [hn]
    · simp [hn, h]
  · intro h1 h2
    simp [handleWaitingAPIError, h1, h2]
  · intro σ dec upd i fuel st b e h
    exact runPoll_stop_err dec upd i fuel st b e h

/-- Witness for C4 as amended at concrete errors: not-found is swallowed,
an internal error is retried, a forbidden error is handed back with
`done = false`, and a tick deciding `(false, someError)` stops the loop. -/
theorem handleWaitingAPIError_spec_witness :
    handleWaitingAPIError (some (GoError.apiErr APIErrorKind.notFound "nf")) true
      = (false, none)
    ∧ handleWaitingAPIError (some (GoError.apiErr APIErrorKind.internalError "ise"))
        true = (false, none)
    ∧ handleWaitingAPIError (some (GoError.apiErr APIErrorKind.forbidden "fb"))
        true = (false, some (GoError.apiErr APIErrorKind.forbidden "fb"))
    ∧ runPoll (fun _ => (false, some (GoError.generic "g")))
        (fun _ (s : Option Cluster) => s) 0 (0 + 1) none
      = (some (GoError.generic "g"), none) :=
  ⟨(handleWaitingAPIError_spec (some (GoError.apiErr APIErrorKind.notFound "nf"))
      true).1 rfl (by decide),
   (handleWaitingAPIError_spec
      (some (GoError.apiErr APIErrorKind.internalError "ise")) true).2.1
      (by decide),
   (handleWaitingAPIError_spec (some (GoError.apiErr APIErrorKind.forbidden "fb"))
      true).2.2.1 (by decide) (by decide),
   (handleWaitingAPIError_spec (some (GoError.generic "g")) true).2.2.2
      (fun _ => (false, some (GoError.generic "g")))
      (fun _ (s : Option Cluster) => s) 0 0 none false (GoError.generic "g")
      rfl⟩

/-- C6 counterexample: in `WaitForClusterNotFound` a retryable fetch error
(an internal error) is not terminal — the tick decides `(false, nil)` and the
wait goes on to succeed when a later fetch reports not-found. -/
theorem retryable_error_not_terminal_in_cluster_not_found :
    clusterNotFoundStep (some (GoError.apiErr APIErrorKind.internalError "ise"), [])
      = (false, none)
    ∧ WaitForClusterNotFound fetchInternalThenNotFound "c" 2 = none := by
  refine ⟨by decide, by decide⟩

/-- C6 as amended: `WaitForClusterNotFound` treats a not-found fetch error as
immediate success (at the first such fetch the wait returns nil without
further fetches); a retryable fetch error (internal error or too many
requests) continues the loop; any other non-nil fetch error is terminal
(handed back as the tick's error); any other observed state — a successful
fetch, with or without items — yields `done = false` and the loop
continues. -/
theorem clusterNotFound_spec :
    (∀ f : ClusterFetchResult, isNotFound f.1 = true →
      clusterNotFoundStep f = (true, none))
    ∧ (∀ f : ClusterFetchResult, isNotFound f.1 = false →
        (shouldRetry f.1).1 = true → clusterNotFoundStep f = (false, none))
    ∧ (∀ (e : GoError) (items : List Cluster), isNotFound (some e) = false →
        (shouldRetry (some e)).1 = false →
        clusterNotFoundStep (some e, items) = (false, some e))
    ∧ (∀ items : List Cluster, clusterNotFoundStep (none, items) = (false, none))
    ∧ (∀ (fetch : Nat → ClusterFetchResult) (clusterName : String) (fuel : Nat),
        0 < fuel → isNotFound (fetch 0).1 = true →
        WaitForClusterNotFound fetch clusterName fuel = none) := by
  refine ⟨?_, ?_, ?_, ?_, ?_⟩
  · intro f h
    simp [clusterNotFoundStep, h]
  · intro f h1 h2
    rcases f with ⟨ferr, items⟩
    simp only [clusterNotFoundStep] at *
    cases ferr with
    | none => simp [h1]
    | some e => simp [h1, handleWaitingAPIError, h2]
  · intro e items h1 h2
    simp [clusterNotFoundStep, h1, handleWaitingAPIError, h2]
  · intro items
    simp [clusterNotFoundStep, isNotFound]
  · intro fetch clusterName fuel hfuel h
    obtain ⟨n, rfl⟩ : ∃ n, fuel = n + 1 := ⟨fuel - 1, by omega⟩
    have hdec : clusterNotFoundDec fetch 0 = (true, none) := by
      rw [clusterNotFoundDec]
      simp [clusterNotFoundStep, h]
    have hloop := runPoll_stop_done (clusterNotFoundDec fetch)
      (clusterNotFoundUpd fetch) 0 n (none : Option Cluster) hdec
    simp [WaitForClusterNotFound, hloop]

/-- Witness for C6 as amended at concrete fetches: not-found succeeds
immediately, an internal error continues, a forbidden error is handed back,
an empty list continues, and a wait whose first fetch is not-found returns
nil. -/
theorem clusterNotFound_spec_witness :
    clusterNotFoundStep (some (GoError.apiErr APIErrorKind.notFound "nf"), [])
      = (true, none)
    ∧ clusterNotFoundStep (some (GoError.apiErr APIErrorKind.internalError "ise"),
        []) = (false, none)
    ∧ clusterNotFoundStep (some (GoError.apiErr APIErrorKind.forbidden "fb"), [])
      = (false, some (GoError.apiErr APIErrorKind.forbidden "fb"))
    ∧ clusterNotFoundStep (none, [cInstalling]) = (false, none)
    ∧ WaitForClusterNotFound
        (fun _ => (some (GoError.apiErr APIErrorKind.notFound "nf"), [])) "c" 1
      = none :=
  ⟨clusterNotFound_spec.1 (some (GoError.apiErr APIErrorKind.notFound "nf"), [])
      (by decide),
   clusterNotFound_spec.2.1
      (some (GoError.apiErr APIErrorKind.internalError "ise"), []) (by decide)
      (by decide),
   clusterNotFound_spec.2.2.1 (GoError.apiErr APIErrorKind.forbidden "fb") []
      (by decide) (by decide),
   clusterNotFound_spec.2.2.2.1 [cInstalling],
   clusterNotFound_spec.2.2.2.2
      (fun _ => (some (GoError.apiErr APIErrorKind.notFound "nf"), [])) "c" 1
      (by decide) (by decide)⟩

/-- C3 counterexample: a cluster wait in which no fetch ever succeeds (every
fetch returns an empty list) and the deadline expires returns a
`timeoutError` — recognised by `IsTimeout`, carrying no snapshot — and not a
plain wrapped generic error as the claim states. -/
theorem zero_success_deadline_returns_timeout_error :
    WaitForClusterCondition fetchAlwaysEmpty "c" "d" 1 clusterRunningCondition
      = some (GoError.timeoutErr "timed out while waiting for cluster c to be d" [])
    ∧ IsTimeout
        (WaitForClusterCondition fetchAlwaysEmpty "c" "d" 1 clusterRunningCondition)
      = true := by
  refine ⟨by decide, by decide⟩

/-- C3 as amended: a Timeout outcome carrying an observed snapshot is produced
by the cluster wait only when at least one fetch succeeded with a non-empty
item list during the call.  With zero successful fetches the cluster wait's
outcome on deadline expiry depends on the last recorded fetch error: when it
is nil (e.g. every fetch returned an empty item list) the wait returns a
snapshot-less `TimeoutError` still recognised by `IsTimeout` — not a plain
wrapped generic error — and when it is a non-nil non-timeout error (e.g.
every fetch failed with a retryable error, substituted at the end of the
wait) the wait returns that error as a plain wrapped generic error.  The
backup wait on deadline expiry returns a `TimeoutError` carrying the
zero-value initial backup even when no fetch ever succeeded, because its
retained pointer is initialised non-nil. -/
theorem timeout_snapshot_requires_successful_fetch :
    (∀ (fetch : Nat → ClusterFetchResult) (clusterName conditionDesc : String)
        (fuel : Nat) (condition : Cluster → Bool × Option GoError)
        (m : String) (obs : List Observed),
      WaitForClusterCondition fetch clusterName conditionDesc fuel condition
        = some (GoError.timeoutErr m obs) → obs ≠ [] →
      ∃ j, j < fuel ∧ (fetch j).1 = none ∧ (fetch j).2 ≠ [])
    ∧ (∀ (fetch : Nat → ClusterFetchResult) (clusterName conditionDesc : String)
        (fuel : Nat) (condition : Cluster → Bool × Option GoError)
        (st : ClusterWaitState),
      runPoll (clusterCondDec fetch condition) (clusterCondUpd fetch) 0 fuel
          initialClusterWaitState = (some GoError.errWaitTimeout, st) →
      st.lastCluster = none → st.lastClusterError = none →
      WaitForClusterCondition fetch clusterName conditionDesc fuel condition
        = some (GoError.timeoutErr ("timed out while "
            ++ ("waiting for cluster " ++ clusterName ++ " to be "
              ++ conditionDesc)) []))
    ∧ (∀ (fetch : Nat → ClusterFetchResult) (clusterName conditionDesc : String)
        (fuel : Nat) (condition : Cluster → Bool × Option GoError)
        (st : ClusterWaitState) (le : GoError),
      runPoll (clusterCondDec fetch condition) (clusterCondUpd fetch) 0 fuel
          initialClusterWaitState = (some GoError.errWaitTimeout, st) →
      st.lastCluster = none → st.lastClusterError = some le →
      IsTimeout (some le) = false →
      WaitForClusterCondition fetch clusterName conditionDesc fuel condition
        = some (GoError.wrapped ("error while "
            ++ ("waiting for cluster " ++ clusterName ++ " to be "
              ++ conditionDesc)) le))
    ∧ WaitForBackupCondition fetchBackupInternal "c" "b" "d" 2
        backupAvailableCondition
      = some (GoError.timeoutErr "timed out while waiting for backup b to be d"
          [Observed.backup Backup.zero]) := by
  refine ⟨?_, ?_, ?_, by decide⟩
  · intro fetch clusterName conditionDesc fuel condition m obs hres hobs
    rcases hr : runPoll (clusterCondDec fetch condition) (clusterCondUpd fetch)
      0 fuel initialClusterWaitState with ⟨oe, st⟩
    rw [WaitForClusterCondition_eq_finish fetch clusterName conditionDesc fuel
      condition oe st hr] at hres
    cases oe with
    | none => exact Option.noConfusion hres
    | some e =>
      cases hlc : st.lastCluster with
      | none =>
        rw [finishClusterWait, hlc] at hres
        exact absurd (maybeTimeoutError_no_observed _ _ _ _ hres) hobs
      | some c =>
        rw [finishClusterWait, hlc] at hres
        have hres2 : (if IsTimeout (some e) = true then
            some (TimeoutError ("timed out while waiting for cluster "
              ++ clusterName ++ " to be " ++ conditionDesc) [Observed.cluster c])
          else maybeTimeoutError (some (st.lastClusterError.getD e))
            ("waiting for cluster " ++ clusterName ++ " to be " ++ conditionDesc))
            = some (GoError.timeoutErr m obs) := hres
        by_cases ht : IsTimeout (some e) = true
        · have hP : st.lastCluster = none ∨
              ∃ j, j < fuel ∧ (fetch j).1 = none ∧ (fetch j).2 ≠ [] := by
            have hinv := runPoll_inv (clusterCondDec fetch condition)
              (clusterCondUpd fetch)
              (fun s => s.lastCluster = none ∨
                ∃ j, j < fuel ∧ (fetch j).1 = none ∧ (fetch j).2 ≠ [])
              fuel 0 initialClusterWaitState ?_ (Or.inl rfl)
            · rw [hr] at hinv
              exact hinv
            · intro j s _ hj hs
              rcases hf : fetch j with ⟨ferr, items⟩
              cases ferr with
              | some e' =>
                simp only [clusterCondUpd, hf]
                exact hs
              | none =>
                cases items with
                | nil =>
                  simp only [clusterCondUpd, hf]
                  exact hs
                | cons c' cs' =>
                  simp only [clusterCondUpd, hf]
                  exact Or.inr ⟨j, by omega, by rw [hf], by rw [hf]; simp⟩
          rcases hP with hP | hP
          · rw [hlc] at hP
            cases hP
          · exact hP
        · rw [if_neg ht] at hres2
          exact absurd (maybeTimeoutError_no_observed _ _ _ _ hres2) hobs
  · intro fetch clusterName conditionDesc fuel condition st hr hlc hlce
    rw [WaitForClusterCondition_eq_finish fetch clusterName conditionDesc fuel
      condition (some GoError.errWaitTimeout) st hr, finishClusterWait, hlc, hlce]
    rfl
  · intro fetch clusterName conditionDesc fuel condition st le hr hlc hlce ht
    rw [WaitForClusterCondition_eq_finish fetch clusterName conditionDesc fuel
      condition (some GoError.errWaitTimeout) st hr, finishClusterWait, hlc, hlce]
    show maybeTimeoutError (some le)
      ("waiting for cluster " ++ clusterName ++ " to be " ++ conditionDesc) = _
    rw [maybeTimeoutError, if_neg (by rw [ht]; exact Bool.false_ne_true)]

/-- Witness for C3 as amended, instantiating every clause: a wait that retains
the installing cluster and then times out admits a successful fetch within
the call; the all-empty-list wait returns the snapshot-less timeout error;
the all-retryable-errors wait returns the plain wrapped internal error. -/
theorem timeout_snapshot_requires_successful_fetch_witness :
    (∃ j, j < 1 ∧ (fetchOneInstalling j).1 = none ∧ (fetchOneInstalling j).2 ≠ [])
    ∧ WaitForClusterCondition fetchAlwaysEmpty "c" "d" 1 clusterRunningCondition
      = some (GoError.timeoutErr ("timed out while "
          ++ ("waiting for cluster " ++ "c" ++ " to be " ++ "d")) [])
    ∧ WaitForClusterCondition fetchClusterInternal "c" "d" 1
        clusterRunningCondition
      = some (GoError.wrapped ("error while "
          ++ ("waiting for cluster " ++ "c" ++ " to be " ++ "d"))
          (GoError.apiErr APIErrorKind.internalError "ise"))
    ∧ WaitForBackupCondition fetchBackupInternal "c" "b" "d" 2
        backupAvailableCondition
      = some (GoError.timeoutErr "timed out while waiting for backup b to be d"
          [Observed.backup Backup.zero]) :=
  ⟨timeout_snapshot_requires_successful_fetch.1 fetchOneInstalling "c" "d" 1
      clusterRunningCondition "timed out while waiting for cluster c to be d"
      [Observed.cluster cInstalling] (by decide) (by decide),
   timeout_snapshot_requires_successful_fetch.2.1 fetchAlwaysEmpty "c" "d" 1
      clusterRunningCondition
      { lastClusterError := none, lastCluster := none }
      (by decide) (by decide) (by decide),
   timeout_snapshot_requires_successful_fetch.2.2.1 fetchClusterInternal "c" "d" 1
      clusterRunningCondition
      { lastClusterError := some (GoError.apiErr APIErrorKind.internalError "ise"),
        lastCluster := none }
      (GoError.apiErr APIErrorKind.internalError "ise")
      (by decide) (by decide) (by decide) (by decide),
   timeout_snapshot_requires_successful_fetch.2.2.2⟩

/-- C10: `WaitForComponentNotFound` returns Success (nil) exactly when some
fetch reached within the timeout (every earlier tick having continued)
returns a non-empty cluster list whose first cluster has an empty add-on
list; a fetched cluster with one or more add-ons yields `done = false` so the
loop continues; and on deadline expiry with a retained cluster snapshot the
wait returns a `TimeoutError` carrying that snapshot. -/
theorem waitForComponentNotFound_spec (fetch : Nat → ClusterFetchResult)
    (clusterName : String) (fuel : Nat) :
    (WaitForComponentNotFound fetch clusterName fuel = none ↔
      ∃ k, k < fuel ∧ ((fetch k).1 = none ∧ firstClusterAddonsEmpty (fetch k).2 = true)
        ∧ ∀ j, j < k → componentNotFoundStep (fetch j) = (false, none))
    ∧ (∀ (c : Cluster) (cs : List Cluster), c.addons ≠ [] →
        componentNotFoundStep (none, c :: cs) = (false, none))
    ∧ (∀ c : Cluster,
        runPoll (componentNotFoundDec fetch) (componentNotFoundUpd fetch) 0 fuel
            (none : Option Cluster)
          = (some GoError.errWaitTimeout, some c) →
        WaitForComponentNotFound fetch clusterName fuel
          = some (GoError.timeoutErr ("timeout while waiting for cluster "
              ++ clusterName ++ " component to be Not Found")
              [Observed.cluster c])) := by
  refine ⟨?_, ?_, ?_⟩
  · rw [WaitForComponentNotFound_none_iff, runPoll_none_iff]
    simp only [Nat.zero_add, componentNotFoundDec]
    constructor
    · rintro ⟨k, hk, hdk, hall⟩
      exact ⟨k, hk, (componentNotFoundStep_done_iff (fetch k)).1 hdk, hall⟩
    · rintro ⟨k, hk, hgood, hall⟩
      exact ⟨k, hk, (componentNotFoundStep_done_iff (fetch k)).2 hgood, hall⟩
  · intro c cs hne
    simp only [componentNotFoundStep, Cluster.deepCopy]
    simp [hne]
  · intro c h
    simp [WaitForComponentNotFound, h, IsTimeout, TimeoutError]

/-- Witness for C10: a fetch that always returns a cluster with one add-on
continues every tick (no Success), and on fuel expiry the wait returns a
`TimeoutError` carrying that cluster; a fetch whose cluster has no add-ons
satisfies the Success characterisation at the first tick. -/
theorem waitForComponentNotFound_spec_witness :
    componentNotFoundStep (none, [clusterWithAddon]) = (false, none)
    ∧ WaitForComponentNotFound fetchClusterWithAddon "c" 1
      = some (GoError.timeoutErr
          "timeout while waiting for cluster c component to be Not Found"
          [Observed.cluster clusterWithAddon])
    ∧ (WaitForComponentNotFound fetchOneInstalling "c" 1 = none ↔
        ∃ k, k < 1
          ∧ ((fetchOneInstalling k).1 = none
              ∧ firstClusterAddonsEmpty (fetchOneInstalling k).2 = true)
          ∧ ∀ j, j < k → componentNotFoundStep (fetchOneInstalling j) = (false, none)) :=
  ⟨(waitForComponentNotFound_spec fetchClusterWithAddon "c" 1).2.1
      clusterWithAddon [] (by decide),
   (waitForComponentNotFound_spec fetchClusterWithAddon "c" 1).2.2
      clusterWithAddon (by decide),
   (waitForComponentNotFound_spec fetchOneInstalling "c" 1).1⟩

end KcWait
